/-
Verification of the cognitive-canvas content-ingestion and quiz-generation
services against their natural-language specification.

The Python services are shallowly embedded as pure Lean functions:

* exceptions become an explicit `PyExc` sum carried in `Except`;
* external network effects (the OpenAI categorization provider, the
  sentence-transformer embedding model, HTTP extraction, the Chroma store)
  become explicit outcome parameters supplied by the environment;
* `datetime.now()` and `uuid4()` become explicit `now`/`uuid` inputs;
* mutable per-service state (the categorization cache) is threaded
  explicitly through the functions that touch it.

Each definition follows the corresponding function in the repository
(src/services/categorization_service.py, src/services/quiz_service.py,
src/services/content_manager.py, src/services/content_extractor.py,
src/services/vector_database.py, src/tools/query_content.py).
-/
import Mathlib

namespace CognitiveCanvas

/-- Python exception values observed by the services, each carrying its
`str(e)` message.  Constructors cover the domain taxonomy declared in
`content_manager.py` and `vector_database.py`, the extractor exceptions from
`core/exceptions`, the OpenAI client exception classes, and the built-in
`TypeError`/`ValueError`/`RuntimeError` raised by the code itself. -/
inductive PyExc where
  | contentStorage (msg : String)
  | contentRetrieval (msg : String)
  | quizGeneration (msg : String)
  | vectorDatabaseError (msg : String)
  | urlFormat (msg : String)
  | nullContent (msg : String)
  | invalidContent (msg : String)
  | metadataExtraction (msg : String)
  | typeError (msg : String)
  | valueError (msg : String)
  | runtimeError (msg : String)
  | rateLimitError (msg : String)
  | apiTimeoutError (msg : String)
  | apiError (msg : String)
  | connectionError (msg : String)
  | timeoutError (msg : String)
  deriving DecidableEq, Repr

/-- `str(e)`: every exception class in play stores its message and prints it
(`core/exceptions/exceptions.py` defines `__str__` returning the message;
the built-ins behave the same way). -/
def PyExc.message : PyExc → String
  | .contentStorage m | .contentRetrieval m | .quizGeneration m
  | .vectorDatabaseError m | .urlFormat m | .nullContent m
  | .invalidContent m | .metadataExtraction m | .typeError m
  | .valueError m | .runtimeError m | .rateLimitError m
  | .apiTimeoutError m | .apiError m | .connectionError m
  | .timeoutError m => m

/-- Python truthiness of an optional string (`None` and `""` are falsy). -/
def truthy : Option String → Bool
  | none => false
  | some s => s ≠ ""

/-- Drop leading whitespace characters. -/
def dropLeadingWs : List Char → List Char
  | [] => []
  | c :: cs => if c.isWhitespace then dropLeadingWs cs else c :: cs

/-- Python `str.strip()`: drop leading and trailing whitespace.  Implemented
by structural recursion over the character list (rather than `String.trim`,
whose `Substring` auxiliaries do not reduce) so that concrete instances
evaluate. -/
def pyStrip (s : String) : String :=
  String.mk ((dropLeadingWs ((dropLeadingWs s.data).reverse)).reverse)

/-- Split a character list at whitespace (empty runs produce empty words,
filtered by the callers). -/
def splitWs : List Char → List (List Char)
  | [] => [[]]
  | c :: cs =>
    match splitWs cs with
    | [] => [[]]
    | w :: ws => if c.isWhitespace then [] :: w :: ws else (c :: w) :: ws

/-- Split a character list at commas (Python `str.split(",")`). -/
def splitOnComma : List Char → List (List Char)
  | [] => [[]]
  | c :: cs =>
    match splitOnComma cs with
    | [] => [[]]
    | w :: ws => if c = ',' then [] :: w :: ws else (c :: w) :: ws

/- ----------------------------------------------------------------------
Categorization service (src/services/categorization_service.py)
---------------------------------------------------------------------- -/

/-- The `CategoryResults` pydantic model returned by the categorization
provider. -/
structure CategoryResults where
  category : String
  confidence : Float
  tags : List String
  summary : String
  deriving Repr

/-- Mutable state of a `CategorizationService` instance: the
`cache_enabled` flag and the `_cache` dict (modelled as an association
list; dict assignment prepends, `List.lookup` reads the latest binding). -/
structure CategorizationState where
  cache_enabled : Bool
  cache : List (String × CategoryResults)

/-- `_generate_cache_key`: `blake2b(title + content).hexdigest()`.  The hash
is modelled as the hashed text itself; the claims under verification depend
only on the key being a deterministic function of `title + content`. -/
def generate_cache_key (title content : String) : String :=
  title ++ content

/-- One attempt of the OpenAI structured-completion call inside
`categorize_content`, as observed by the retry loop: success, one of the two
transient classes (`RateLimitError`, `APITimeoutError`), an `APIError`, or
any other exception. -/
inductive ProviderOutcome where
  | ok (r : CategoryResults)
  | rateLimitError (msg : String)
  | apiTimeoutError (msg : String)
  | apiError (msg : String)
  | unexpected (msg : String)

/-- Result of a `categorize_content` call: the returned value or raised
exception (`Except`), the updated cache state, the number of provider
invocations performed, and the list of `time.sleep` delays taken between
attempts.  The Python function falls off the loop and returns `None` when
`max_retries < 1`, hence the `Option` in the success type. -/
structure CategorizeResult where
  result : Except PyExc (Option CategoryResults)
  state : CategorizationState
  providerCalls : Nat
  sleeps : List Nat

/-- The `for attempt in range(1, max_retries + 1)` loop of
`categorize_content`.  `remaining` is the number of loop iterations left;
`provider` gives the outcome of the attempt numbered `attempt`. -/
def categorizeLoop (st : CategorizationState) (key : String)
    (provider : Nat → ProviderOutcome) (attempt remaining maxRetries retryDelay : Nat)
    (calls : Nat) (sleeps : List Nat) : CategorizeResult :=
  match remaining with
  | 0 => ⟨.ok none, st, calls, sleeps⟩
  | remaining + 1 =>
    match provider attempt with
    | .ok r =>
      let st := if st.cache_enabled then { st with cache := (key, r) :: st.cache } else st
      ⟨.ok (some r), st, calls + 1, sleeps⟩
    | .rateLimitError m =>
      if attempt < maxRetries then
        categorizeLoop st key provider (attempt + 1) remaining maxRetries retryDelay
          (calls + 1) (sleeps ++ [retryDelay])
      else
        ⟨.error (.runtimeError ("Retry limit reached. Failed due to transient error: " ++ m)),
          st, calls + 1, sleeps⟩
    | .apiTimeoutError m =>
      if attempt < maxRetries then
        categorizeLoop st key provider (attempt + 1) remaining maxRetries retryDelay
          (calls + 1) (sleeps ++ [retryDelay])
      else
        ⟨.error (.runtimeError ("Retry limit reached. Failed due to transient error: " ++ m)),
          st, calls + 1, sleeps⟩
    | .apiError m =>
      ⟨.error (.runtimeError ("API Error occurred: " ++ m)), st, calls + 1, sleeps⟩
    | .unexpected m =>
      ⟨.error (.runtimeError ("Unexpected error occurred: " ++ m)), st, calls + 1, sleeps⟩

/-- `CategorizationService.categorize_content(title, content, max_retries=3,
retry_delay=2)`: empty-content validation, cache lookup, then the retry
loop over provider attempts. -/
def categorize_content (st : CategorizationState) (title content : String)
    (provider : Nat → ProviderOutcome) (max_retries : Nat := 3)
    (retry_delay : Nat := 2) : CategorizeResult :=
  if pyStrip content = "" then
    ⟨.error (.valueError "Cannot categorize empty content."), st, 0, []⟩
  else
    let key := generate_cache_key title content
    match (if st.cache_enabled then st.cache.lookup key else none) with
    | some r => ⟨.ok (some r), st, 0, []⟩
    | none => categorizeLoop st key provider 1 max_retries max_retries retry_delay 0 []

/- ----------------------------------------------------------------------
Quiz models and quiz service (src/models/quiz.py, src/services/quiz_service.py)
---------------------------------------------------------------------- -/

/-- The `QuizQuestion` pydantic model. -/
structure QuizQuestion where
  number : Int := 1
  topic : String
  question : String
  explanation : String
  choice : List String
  deriving DecidableEq, Repr

/-- The `Quiz` pydantic model (`quiz_id` is a UUID, modelled as a string). -/
structure Quiz where
  title : String
  quiz_id : String
  questions : List QuizQuestion := []
  deriving DecidableEq, Repr

/-- The per-question check of `generate_mcq_quiz`: exactly 4 choices and a
non-blank explanation, first violation raising `ValueError`. -/
def check_mcq_question (q : QuizQuestion) : Except PyExc Unit :=
  if q.choice.length ≠ 4 then
    .error (.valueError ("Question " ++ toString q.number ++ " should have 4 choices."))
  else if pyStrip q.explanation = "" then
    .error (.valueError ("Explanation is missing for question " ++ toString q.number ++ "."))
  else
    .ok ()

/-- The per-question check of `generate_fill_in_blank_quiz`: at least 2
choices and a non-blank explanation. -/
def check_fib_question (q : QuizQuestion) : Except PyExc Unit :=
  if q.choice.length < 2 then
    .error (.valueError ("Question " ++ toString q.number ++ " should have at least 2 choices."))
  else if pyStrip q.explanation = "" then
    .error (.valueError ("Explanation is missing for question " ++ toString q.number ++ "."))
  else
    .ok ()

/-- The per-question check of `generate_true_false_quiz`: exactly 2 choices
and a non-blank explanation. -/
def check_tf_question (q : QuizQuestion) : Except PyExc Unit :=
  if q.choice.length ≠ 2 then
    .error (.valueError ("Question " ++ toString q.number ++ " should have exactly 2 choices (True or False)."))
  else if pyStrip q.explanation = "" then
    .error (.valueError ("Explanation is missing for question " ++ toString q.number ++ "."))
  else
    .ok ()

/-- The `for q in quiz.questions` validation loop shared by the three quiz
generators: runs `check` on each question in order, propagating the first
raised error. -/
def validate_questions (check : QuizQuestion → Except PyExc Unit) :
    List QuizQuestion → Except PyExc Unit
  | [] => .ok ()
  | q :: rest =>
    match check q with
    | .ok () => validate_questions check rest
    | .error e => .error e

/-- The `try ... except Exception` wrapper of the quiz generators: any
exception from the provider call or the validation loop is re-raised as
`RuntimeError` with the original message appended. -/
def wrapQuizRuntime (r : Except PyExc Quiz) : Except PyExc Quiz :=
  match r with
  | .ok q => .ok q
  | .error e => .error (.runtimeError ("Failed to generate quiz: " ++ e.message))

/-- The validations shared verbatim by the three generators, raised before
the `try` block (so they propagate as bare `ValueError`s): blank summaries,
non-positive question count, out-of-range difficulty. -/
def quiz_input_validation (content_summaries : List String)
    (num_questions : Int) (difficulty : String) : Except PyExc Unit :=
  if content_summaries = [] ∨ content_summaries.all (fun s => pyStrip s = "") then
    .error (.valueError "Content summaries cannot be blank.")
  else if num_questions ≤ 0 then
    .error (.valueError "Number of questions must be greater than zero.")
  else if ¬ (["easy", "medium", "hard", "mixed"].contains difficulty) then
    .error (.valueError "difficulty must be: easy, medium, hard, or mixed.")
  else
    .ok ()

/-- `QuizService.generate_mcq_quiz`: input validation, provider call
(outcome supplied by the environment as `providerOutcome`), post-generation
shape validation, `RuntimeError` wrapping. -/
def generate_mcq_quiz (content_summaries : List String) (_category : String)
    (providerOutcome : Except PyExc Quiz) (num_questions : Int := 5)
    (difficulty : String := "mixed") : Except PyExc Quiz :=
  match quiz_input_validation content_summaries num_questions difficulty with
  | .error e => .error e
  | .ok () =>
    wrapQuizRuntime (do
      let quiz ← providerOutcome
      let _ ← validate_questions check_mcq_question quiz.questions
      return quiz)

/-- `QuizService.generate_fill_in_blank_quiz`. -/
def generate_fill_in_blank_quiz (content_summaries : List String) (_category : String)
    (providerOutcome : Except PyExc Quiz) (num_questions : Int := 5)
    (difficulty : String := "mixed") : Except PyExc Quiz :=
  match quiz_input_validation content_summaries num_questions difficulty with
  | .error e => .error e
  | .ok () =>
    wrapQuizRuntime (do
      let quiz ← providerOutcome
      let _ ← validate_questions check_fib_question quiz.questions
      return quiz)

/-- `QuizService.generate_true_false_quiz`. -/
def generate_true_false_quiz (content_summaries : List String) (_category : String)
    (providerOutcome : Except PyExc Quiz) (num_questions : Int := 5)
    (difficulty : String := "mixed") : Except PyExc Quiz :=
  match quiz_input_validation content_summaries num_questions difficulty with
  | .error e => .error e
  | .ok () =>
    wrapQuizRuntime (do
      let quiz ← providerOutcome
      let _ ← validate_questions check_tf_question quiz.questions
      return quiz)

/- ----------------------------------------------------------------------
Content models and extractor (src/models/content.py,
src/services/content_extractor.py)
---------------------------------------------------------------------- -/

/-- The `metadata` sub-dict of an extraction result, as read by the Content
Manager with `.get` defaults; the extractor populates at most
`author`/`date`/`type`.  Timestamps are modelled as natural numbers. -/
structure RawMetadata where
  author : Option String := none
  abstract : Option String := none
  keywords : Option (List String) := none
  date_published : Option Nat := none
  date : Option String := none
  type : Option String := none
  deriving Repr

/-- The dict returned by `ContentExtractor.extract_from_url` /
`extract_from_text`: either an `{"error": ...}` report or the extracted
fields, every key read by callers through `.get` with a default. -/
structure ExtractedContent where
  error : Option String := none
  title : Option String := none
  content : Option String := none
  summary : Option String := none
  url : Option String := none
  domain : Option String := none
  metadata : RawMetadata := {}
  deriving Repr

/-- `ContentExtractor.clean_text`: collapse runs of whitespace to single
spaces and strip the ends (`re.sub(r"\s+", " ", text).strip()`). -/
def clean_text (s : String) : String :=
  String.intercalate " " (((splitWs s.data).filter (· ≠ [])).map (fun w => String.mk w))

/-- `ContentExtractor.extract_from_text`: local cleaning only, fixed title,
no network access, never raises. -/
def extract_from_text (text : String) : ExtractedContent :=
  { title := some "Extracted text"
    content := some (clean_text text)
    metadata := { type := some "text" } }

/-- The `ContentMetadata` pydantic model (uuid field omitted as inert). -/
structure ContentMetadata where
  title : String
  author : String
  abstract : String
  keywords : List String
  date_published : Nat
  citation : Option String := none
  deriving Repr

/-- The `ContentRecord` pydantic model. -/
structure ContentRecord where
  content_id : String
  original_content : String
  content_type : String
  title : String
  summary : String
  category : String
  tags : List String
  embedding : List Float
  timestamp : Nat
  source_url : Option String := none
  metadata : ContentMetadata
  deriving Repr

/- ----------------------------------------------------------------------
Content Manager ingestion workflows (src/services/content_manager.py)
---------------------------------------------------------------------- -/

/-- Side effects observable during an ingestion workflow: how many times the
categorization provider network call and the vector-store insert actually
ran. -/
structure CallLog where
  categorizationProviderCalls : Nat := 0
  storeCalls : Nat := 0
  deriving DecidableEq, Repr

/-- The call `self.categorization_service.categorize_content(extracted_content)`
in both ingestion workflows passes one positional argument where the
signature `categorize_content(self, title: str, content: str, ...)` requires
two, so Python raises `TypeError` at the call site, before the service body
(and hence before any provider network call) runs. -/
def categorize_content_call_one_arg (_ec : ExtractedContent) :
    Except PyExc CategoryResults :=
  .error (.typeError
    "CategorizationService.categorize_content() missing 1 required positional argument: content")

/-- The call `self.vector_database.store(content_record)` passes one
positional argument where the signature `store(self, content_dict, category)`
requires two, so Python raises `TypeError` at the call site, before
`collection.add` runs. -/
def vector_database_store_call_one_arg (_rec : ContentRecord) : Except PyExc String :=
  .error (.typeError
    "VectorDatabase.store() missing 1 required positional argument: category")

/-- The `try` body of `ContentManager.store_content_from_url` (steps 1-6).
The extraction and embedding outcomes are environment inputs; the
categorization and store steps fail deterministically at their call sites
(arity `TypeError`s above), so the tail of the body is dead code, written
out anyway to mirror the source. -/
def store_content_from_url_body (extract : Except PyExc ExtractedContent)
    (embedOutcome : Except PyExc (List Float)) (url : String)
    (custom_category : Option String) (custom_tags : Option (List String))
    (now : Nat) (uuid : String) : Except PyExc ContentRecord × CallLog :=
  match extract with
  | .error e => (.error e, {})
  | .ok ec =>
    if truthy ec.error then
      (.error (.contentStorage ("Content extraction failed: " ++ ec.error.getD "")), {})
    else
      let title := ec.title.getD "No Title"
      let content_text := pyStrip (ec.content.getD "")
      if content_text = "" then
        (.error (.contentStorage "No content extracted"), {})
      else
        match embedOutcome with
        | .error e => (.error e, {})
        | .ok embedding =>
          match categorize_content_call_one_arg ec with
          | .error e => (.error e, {})
          | .ok cat_result =>
            let (category, tags) :=
              match custom_category with
              | some c => (c, custom_tags.getD [])
              | none => (cat_result.category, custom_tags.getD cat_result.tags)
            let summary := cat_result.summary
            let metadata : ContentMetadata :=
              { title := title
                author := ec.metadata.author.getD "Unknown"
                abstract := ec.metadata.abstract.getD ""
                keywords := ec.metadata.keywords.getD []
                date_published := ec.metadata.date_published.getD now }
            let content_record : ContentRecord :=
              { content_id := uuid
                original_content := ec.content.getD ""
                content_type := "url"
                title := title
                summary := summary
                category := category
                tags := tags
                embedding := embedding
                timestamp := now
                source_url := some url
                metadata := metadata }
            match vector_database_store_call_one_arg content_record with
            | .error e => (.error e, {})
            | .ok _ => (.ok content_record, { storeCalls := 1 })

/-- Is `e` one of the three extractor exceptions named by the first `except`
clause of `store_content_from_url`? -/
def isExtractorExc : PyExc → Bool
  | .urlFormat _ | .nullContent _ | .invalidContent _ => true
  | _ => false

/-- `ContentManager.store_content_from_url`: the `try` body plus its two
`except` clauses, each re-raising as `ContentStorageException` with the
original message appended.  (The tenacity retry decorator never fires: its
trigger classes `ConnectionError`/`TimeoutError` are caught inside the body
by `except Exception` and re-raised as `ContentStorageException`.) -/
def store_content_from_url (extract : Except PyExc ExtractedContent)
    (embedOutcome : Except PyExc (List Float)) (url : String)
    (custom_category : Option String) (custom_tags : Option (List String))
    (now : Nat) (uuid : String) : Except PyExc ContentRecord × CallLog :=
  match store_content_from_url_body extract embedOutcome url custom_category custom_tags now uuid with
  | (.ok rec, log) => (.ok rec, log)
  | (.error e, log) =>
    if isExtractorExc e then
      (.error (.contentStorage ("Failed to extract content: " ++ e.message)), log)
    else
      (.error (.contentStorage ("Content storage failed: " ++ e.message)), log)

/-- The `try` body of `ContentManager.store_content_from_text` (steps 1-6).
`extract_from_text` is local and deterministic; the embedding outcome is an
environment input; the categorization and store call sites fail as in the
URL workflow. -/
def store_content_from_text_body (embedOutcome : Except PyExc (List Float))
    (text : String) (_title : Option String) (custom_category : Option String)
    (custom_tags : Option (List String)) (now : Nat) (uuid : String) :
    Except PyExc ContentRecord × CallLog :=
  let extracted_text := extract_from_text text
  let cleaned := pyStrip (extracted_text.content.getD "")
  if cleaned = "" then
    (.error (.contentStorage "No valid text content provided"), {})
  else
    let title := extracted_text.title.getD "No Title"
    match embedOutcome with
    | .error e => (.error e, {})
    | .ok embedding =>
      match categorize_content_call_one_arg extracted_text with
      | .error e => (.error e, {})
      | .ok cat_result =>
        let (category, tags) :=
          match custom_category with
          | some c => (c, custom_tags.getD [])
          | none => (cat_result.category, custom_tags.getD cat_result.tags)
        let summary := extracted_text.summary.getD ""
        let metadata : ContentMetadata :=
          { title := title
            author := extracted_text.metadata.author.getD "Unknown"
            abstract := extracted_text.metadata.abstract.getD ""
            keywords := extracted_text.metadata.keywords.getD []
            date_published := extracted_text.metadata.date_published.getD now }
        let content_record : ContentRecord :=
          { content_id := uuid
            original_content := extracted_text.content.getD ""
            content_type := "text"
            title := title
            summary := summary
            category := category
            tags := tags
            embedding := embedding
            timestamp := now
            source_url := none
            metadata := metadata }
        match vector_database_store_call_one_arg content_record with
        | .error e => (.error e, {})
        | .ok _ => (.ok content_record, { storeCalls := 1 })

/-- `ContentManager.store_content_from_text`: the `try` body plus its single
`except Exception` clause. -/
def store_content_from_text (embedOutcome : Except PyExc (List Float))
    (text : String) (title : Option String) (custom_category : Option String)
    (custom_tags : Option (List String)) (now : Nat) (uuid : String) :
    Except PyExc ContentRecord × CallLog :=
  match store_content_from_text_body embedOutcome text title custom_category custom_tags now uuid with
  | (.ok rec, log) => (.ok rec, log)
  | (.error e, log) =>
    (.error (.contentStorage ("Text storage failed: " ++ e.message)), log)

/- ----------------------------------------------------------------------
Bulk URL storage (ContentManager.store_bulk_urls)
---------------------------------------------------------------------- -/

/-- An entry of the `success` list of `store_bulk_urls`. -/
structure BulkSuccessEntry where
  url : String
  content_id : String
  deriving DecidableEq, Repr

/-- An entry of the `failed` list of `store_bulk_urls`. -/
structure BulkFailedEntry where
  url : String
  error : String
  deriving DecidableEq, Repr

/-- The results dict accumulated by `store_bulk_urls`. -/
structure BulkResults where
  success_count : Nat
  failed_count : Nat
  total : Nat
  success : List BulkSuccessEntry
  failed : List BulkFailedEntry
  deriving DecidableEq, Repr

/-- The `for url in urls` loop of `store_bulk_urls`: one `store_content_from_url`
call per URL in order; `ContentStorageException` is caught and recorded in
`failed`, any other exception would propagate and abort the loop. -/
def bulk_loop (step : String → Except PyExc ContentRecord) :
    List String → BulkResults → Except PyExc BulkResults
  | [], acc => .ok acc
  | url :: rest, acc =>
    match step url with
    | .ok rec =>
      bulk_loop step rest
        { acc with
          success_count := acc.success_count + 1
          success := acc.success ++ [⟨url, rec.content_id⟩] }
    | .error (.contentStorage m) =>
      bulk_loop step rest
        { acc with
          failed_count := acc.failed_count + 1
          failed := acc.failed ++ [⟨url, m⟩] }
    | .error e => .error e

/-- Per-URL environment for the bulk workflow: the extraction and embedding
outcomes and the `now`/`uuid` values the workflow would observe for that
URL. -/
structure UrlEnv where
  extract : Except PyExc ExtractedContent
  embed : Except PyExc (List Float)
  now : Nat
  uuid : String

/-- `ContentManager.store_bulk_urls`: initializes the counts with
`total = len(urls)` and runs the sequential loop. -/
def store_bulk_urls (env : String → UrlEnv) (urls : List String)
    (custom_category : Option String) (custom_tags : Option (List String)) :
    Except PyExc BulkResults :=
  bulk_loop
    (fun url =>
      (store_content_from_url (env url).extract (env url).embed url
        custom_category custom_tags (env url).now (env url).uuid).1)
    urls
    { success_count := 0, failed_count := 0, total := urls.length
      success := [], failed := [] }

/- ----------------------------------------------------------------------
Vector store metadata shape and record reconstruction
(VectorDatabase.store, ContentManager.retrieve_content_by_category)
---------------------------------------------------------------------- -/

/-- The flattened metadata dict written by `VectorDatabase.store`: tags are
joined into one comma-delimited string, `timestamp` is `datetime.now()` at
write time, `url` defaults to the empty string. -/
structure StoredMetadata where
  title : String
  category : String
  timestamp : Nat
  url : String
  tags : String
  summary : String
  deriving DecidableEq, Repr

/-- Serialization performed by `VectorDatabase.store` on a record passed in
its dict form. -/
def vdb_store_metadata (rec : ContentRecord) (category : String) (now : Nat) :
    StoredMetadata :=
  { title := rec.title
    category := category
    timestamp := now
    url := rec.source_url.getD ""
    tags := String.intercalate "," rec.tags
    summary := rec.summary }

/-- A dynamically typed Python value arriving at a pydantic `List[str]`
field. -/
inductive PyVal where
  | str (s : String)
  | list (l : List String)
  deriving DecidableEq, Repr

/-- Pydantic validation of a value against `tags: List[str]`: a Python
`str` is not accepted as a list and raises a validation error. -/
def validate_str_list : PyVal → Except PyExc (List String)
  | .list l => .ok l
  | .str _ => .error (.valueError "Input should be a valid list")

/-- `get_all_tags` splits stored tag strings with
`t.strip() for t in tag_str.split(",") if t.strip()`; this is the read-side
splitter the store layer provides. -/
def split_tags (s : String) : List String :=
  (((splitOnComma s.data).map (fun w => pyStrip (String.mk w)))).filter (· ≠ "")

/-- The fields `retrieve_content_by_category` feeds back into
`ContentRecord`: `title` from stored metadata, `category` from the query
argument, and `tags` taken directly from `metadatas[i].get("tags", [])` —
the stored comma-joined string, passed to the `List[str]` field without
splitting. -/
def reconstruct_record_fields (m : StoredMetadata) (query_category : String) :
    Except PyExc (String × String × List String) :=
  match validate_str_list (.str m.tags) with
  | .error e => .error e
  | .ok tags => .ok (m.title, query_category, tags)

/- ----------------------------------------------------------------------
query_content tool (src/tools/query_content.py)
---------------------------------------------------------------------- -/

/-- The `QueryContentRequest` dataclass. -/
structure QueryContentRequest where
  query_text : String
  start_date : Option String := none
  end_date : Option String := none
  category : Option String := none
  k : Nat := 5
  deriving Repr

/-- A query issued to the vector store by `query_content`.  The parsed
`datetime.fromisoformat` values are carried as the validated ISO strings
(no claim consumes the numeric datetime value). -/
inductive StoreQuery where
  | dateRange (start_date end_date : String) (k : Nat)
  | byCategory (category : String) (k : Nat)
  deriving DecidableEq, Repr

/-- Are all characters decimal digits? -/
def allDigits (l : List Char) : Bool :=
  l.all (fun c => c.isDigit)

/-- The time component `datetime.fromisoformat` accepts after the date and
separator: `HH:MM`, `HH:MM:SS`, or `HH:MM:SS.ffffff`. -/
def isIsoTime : List Char → Bool
  | [h1, h2, ':', n1, n2] => allDigits [h1, h2, n1, n2]
  | [h1, h2, ':', n1, n2, ':', s1, s2] => allDigits [h1, h2, n1, n2, s1, s2]
  | h1 :: h2 :: ':' :: n1 :: n2 :: ':' :: s1 :: s2 :: '.' :: frac =>
      allDigits [h1, h2, n1, n2, s1, s2] && !frac.isEmpty && allDigits frac
  | _ => false

/-- Acceptance of `datetime.fromisoformat` (standard library): a
`YYYY-MM-DD` date, optionally followed by a `T` or space separator and a
time component.  The claims depend only on the parse being a deterministic
check that accepts ISO dates and rejects malformed strings with
`ValueError`. -/
def isIsoFormat (s : String) : Bool :=
  match s.data with
  | [y1, y2, y3, y4, '-', m1, m2, '-', d1, d2] =>
      allDigits [y1, y2, y3, y4, m1, m2, d1, d2]
  | y1 :: y2 :: y3 :: y4 :: '-' :: m1 :: m2 :: '-' :: d1 :: d2 :: sep :: time =>
      allDigits [y1, y2, y3, y4, m1, m2, d1, d2] &&
      (sep = 'T' || sep = ' ') && isIsoTime time
  | _ => false

/-- `datetime.fromisoformat`: the parsed datetime (carried as the validated
ISO string) or the `ValueError` CPython raises on malformed input. -/
def fromisoformat (s : String) : Except PyExc String :=
  if isIsoFormat s then .ok s
  else .error (.valueError ("Invalid isoformat string: \x27" ++ s ++ "\x27"))

/-- `query_content`: dispatch on truthiness of the request fields.  When
both dates are truthy, `start_date` is parsed with
`datetime.fromisoformat` first, then `end_date`; a parse `ValueError` — like
the validation `ValueError` raised in the `else` branch — is caught by the
function's own `except Exception` and re-raised as `VectorDatabaseError`
with the original message appended, before any store query is issued.
`db` supplies the store's answer; the second component records which store
queries were issued. -/
def query_content {α : Type} (db : StoreQuery → α) (req : QueryContentRequest) :
    Except PyExc α × List StoreQuery :=
  if truthy req.start_date ∧ truthy req.end_date then
    match fromisoformat (req.start_date.getD "") with
    | .error e =>
      (.error (.vectorDatabaseError ("Failed to query content: " ++ e.message)), [])
    | .ok start_date =>
      match fromisoformat (req.end_date.getD "") with
      | .error e =>
        (.error (.vectorDatabaseError ("Failed to query content: " ++ e.message)), [])
      | .ok end_date =>
        let q := StoreQuery.dateRange start_date end_date req.k
        (.ok (db q), [q])
  else if truthy req.category then
    let q := StoreQuery.byCategory (req.category.getD "") req.k
    (.ok (db q), [q])
  else
    (.error (.vectorDatabaseError
      "Failed to query content: Either date_range or category must be provided for querying content."),
      [])

/- ----------------------------------------------------------------------
Shared lemmas about the ingestion workflows
---------------------------------------------------------------------- -/

/-- The `try` body of the URL workflow can only produce an error: every
branch that survives extraction, the empty-content check and the embedding
step runs into the arity `TypeError` of the categorization call site. -/
theorem store_content_from_url_body_isError (extract : Except PyExc ExtractedContent)
    (embedOutcome : Except PyExc (List Float)) (url : String)
    (custom_category : Option String) (custom_tags : Option (List String))
    (now : Nat) (uuid : String) :
    ∃ e log, store_content_from_url_body extract embedOutcome url custom_category
      custom_tags now uuid = (.error e, log) := by
  cases extract with
  | error e => exact ⟨e, {}, rfl⟩
  | ok ec =>
    by_cases h1 : truthy ec.error
    · exact ⟨.contentStorage ("Content extraction failed: " ++ ec.error.getD ""), {},
        by simp [store_content_from_url_body, h1]⟩
    · by_cases h2 : pyStrip (ec.content.getD "") = ""
      · exact ⟨.contentStorage "No content extracted", {},
          by simp [store_content_from_url_body, h1, h2]⟩
      · cases embedOutcome with
        | error e =>
          exact ⟨e, {}, by simp [store_content_from_url_body, h1, h2]⟩
        | ok emb =>
          exact ⟨.typeError
            "CategorizationService.categorize_content() missing 1 required positional argument: content",
            {}, by
            simp [store_content_from_url_body, h1, h2, categorize_content_call_one_arg]⟩

/-- Whatever the environment does, `store_content_from_url` raises
`ContentStorageException`: the body always errors and both `except` clauses
re-raise as `ContentStorageException`. -/
theorem store_content_from_url_storage_error (extract : Except PyExc ExtractedContent)
    (embedOutcome : Except PyExc (List Float)) (url : String)
    (custom_category : Option String) (custom_tags : Option (List String))
    (now : Nat) (uuid : String) :
    ∃ m log, store_content_from_url extract embedOutcome url custom_category
      custom_tags now uuid = (.error (.contentStorage m), log) := by
  obtain ⟨e, log, h⟩ := store_content_from_url_body_isError extract embedOutcome url
    custom_category custom_tags now uuid
  by_cases hex : isExtractorExc e
  · exact ⟨"Failed to extract content: " ++ e.message, log,
      by simp [store_content_from_url, h, hex]⟩
  · exact ⟨"Content storage failed: " ++ e.message, log,
      by simp [store_content_from_url, h, hex]⟩

/-- The `try` body of the text workflow can only produce an error, for the
same reason as the URL workflow. -/
theorem store_content_from_text_body_isError (embedOutcome : Except PyExc (List Float))
    (text : String) (title : Option String) (custom_category : Option String)
    (custom_tags : Option (List String)) (now : Nat) (uuid : String) :
    ∃ e log, store_content_from_text_body embedOutcome text title custom_category
      custom_tags now uuid = (.error e, log) := by
  by_cases h1 : (pyStrip ((extract_from_text text).content.getD "") = "")
  · exact ⟨.contentStorage "No valid text content provided", {},
      by simp [store_content_from_text_body, h1]⟩
  · cases embedOutcome with
    | error e => exact ⟨e, {}, by simp [store_content_from_text_body, h1]⟩
    | ok emb =>
      exact ⟨.typeError
        "CategorizationService.categorize_content() missing 1 required positional argument: content",
        {}, by
        simp [store_content_from_text_body, h1, categorize_content_call_one_arg]⟩

/-- Whatever the environment does, `store_content_from_text` raises
`ContentStorageException`. -/
theorem store_content_from_text_storage_error (embedOutcome : Except PyExc (List Float))
    (text : String) (title : Option String) (custom_category : Option String)
    (custom_tags : Option (List String)) (now : Nat) (uuid : String) :
    ∃ m log, store_content_from_text embedOutcome text title custom_category
      custom_tags now uuid = (.error (.contentStorage m), log) := by
  obtain ⟨e, log, h⟩ := store_content_from_text_body_isError embedOutcome text title
    custom_category custom_tags now uuid
  exact ⟨"Text storage failed: " ++ e.message, log,
    by simp [store_content_from_text, h]⟩

/-- Invariant of the bulk loop when every per-URL call raises
`ContentStorageException` (which `store_content_from_url` always does): the
loop completes without aborting, records one `failed` entry per URL in
order, and leaves the initial counts shifted by the number of URLs. -/
theorem bulk_loop_all_fail (step : String → Except PyExc ContentRecord)
    (hstep : ∀ url, ∃ m, step url = .error (.contentStorage m)) :
    ∀ (urls : List String) (acc : BulkResults), ∃ res,
      bulk_loop step urls acc = .ok res ∧
      res.total = acc.total ∧
      res.success = acc.success ∧
      res.success_count = acc.success_count ∧
      res.failed_count = acc.failed_count + urls.length ∧
      res.failed.map BulkFailedEntry.url = acc.failed.map BulkFailedEntry.url ++ urls ∧
      res.failed.length = acc.failed.length + urls.length := by
  intro urls
  induction urls with
  | nil => intro acc; exact ⟨acc, rfl, rfl, rfl, rfl, by simp, by simp, by simp⟩
  | cons url rest ih =>
    intro acc
    obtain ⟨m, hm⟩ := hstep url
    obtain ⟨res, hres, htot, hsucc, hsc, hfc, hfurl, hflen⟩ :=
      ih { acc with
            failed_count := acc.failed_count + 1
            failed := acc.failed ++ [⟨url, m⟩] }
    refine ⟨res, ?_, htot, hsucc, hsc, ?_, ?_, ?_⟩
    · simpa [bulk_loop, hm] using hres
    · simpa [Nat.add_assoc, Nat.add_comm 1 rest.length] using hfc
    · simpa using hfurl
    · simpa [Nat.add_assoc, Nat.add_comm 1 rest.length] using hflen

/-- C10: for every input, both ingestion workflows raise
`ContentStorageException` and never return a `ContentRecord`: the workflow
invokes `categorize_content` with a single dictionary argument where the
signature requires `(title, content)`, and invokes `VectorDatabase.store`
with only the record where a `category` argument is also required, so the
success path of both workflows is unreachable. -/
theorem ingestion_success_unreachable :
    (∀ (extract : Except PyExc ExtractedContent) (embedOutcome : Except PyExc (List Float))
       (url : String) (custom_category : Option String) (custom_tags : Option (List String))
       (now : Nat) (uuid : String), ∃ m log,
       store_content_from_url extract embedOutcome url custom_category custom_tags now uuid
         = (.error (.contentStorage m), log)) ∧
    (∀ (embedOutcome : Except PyExc (List Float)) (text : String) (title : Option String)
       (custom_category : Option String) (custom_tags : Option (List String))
       (now : Nat) (uuid : String), ∃ m log,
       store_content_from_text embedOutcome text title custom_category custom_tags now uuid
         = (.error (.contentStorage m), log)) :=
  ⟨fun extract embedOutcome url cc ct now uuid =>
      store_content_from_url_storage_error extract embedOutcome url cc ct now uuid,
   fun embedOutcome text title cc ct now uuid =>
      store_content_from_text_storage_error embedOutcome text title cc ct now uuid⟩

/-- C2: for every list of URLs, `store_bulk_urls` returns a result with
`total = len(urls)` and `success_count + failed_count = total`, processing
the URLs sequentially and isolating failures: each URL failure becomes one
entry of the `failed` list (in order, covering every URL) and the remaining
URLs are still processed, never aborting the batch. -/
theorem store_bulk_urls_aggregate (env : String → UrlEnv) (urls : List String)
    (custom_category : Option String) (custom_tags : Option (List String)) :
    ∃ res, store_bulk_urls env urls custom_category custom_tags = .ok res ∧
      res.total = urls.length ∧
      res.success_count + res.failed_count = res.total ∧
      res.success.length = res.success_count ∧
      res.failed.length = res.failed_count ∧
      res.failed.map BulkFailedEntry.url = urls := by
  obtain ⟨res, hres, htot, hsucc, hsc, hfc, hfurl, hflen⟩ :=
    bulk_loop_all_fail
      (fun url =>
        (store_content_from_url (env url).extract (env url).embed url
          custom_category custom_tags (env url).now (env url).uuid).1)
      (fun url => by
        obtain ⟨m, log, h⟩ := store_content_from_url_storage_error (env url).extract
          (env url).embed url custom_category custom_tags (env url).now (env url).uuid
        exact ⟨m, by simpa using congrArg Prod.fst h⟩)
      urls
      { success_count := 0, failed_count := 0, total := urls.length
        success := [], failed := [] }
  refine ⟨res, hres, htot, ?_, ?_, ?_, ?_⟩
  · simp only [hsc, hfc, htot]; omega
  · simp [hsucc, hsc]
  · simp [hflen, hfc]
  · simpa using hfurl

/-- C3: for every URL whose extraction reports a transport-level failure
(an `{"error": ...}` result) or yields empty or whitespace-only content
text, `store_content_from_url` raises `ContentStorageException`, never
returns a `ContentRecord`, and nothing is stored (the call log shows no
store insert). -/
theorem url_extraction_failure_raises (ec : ExtractedContent)
    (embedOutcome : Except PyExc (List Float)) (url : String)
    (custom_category : Option String) (custom_tags : Option (List String))
    (now : Nat) (uuid : String)
    (h : truthy ec.error = true ∨ pyStrip (ec.content.getD "") = "") :
    ∃ m, store_content_from_url (.ok ec) embedOutcome url custom_category
      custom_tags now uuid = (.error (.contentStorage m), ({} : CallLog)) := by
  by_cases h1 : truthy ec.error
  · have hbody : store_content_from_url_body (.ok ec) embedOutcome url custom_category
        custom_tags now uuid
        = (.error (.contentStorage ("Content extraction failed: " ++ ec.error.getD "")), {}) := by
      simp [store_content_from_url_body, h1]
    exact ⟨"Content storage failed: " ++ ("Content extraction failed: " ++ ec.error.getD ""),
      by simp [store_content_from_url, hbody, isExtractorExc, PyExc.message]⟩
  · have h2 : pyStrip (ec.content.getD "") = "" := h.resolve_left h1
    have hbody : store_content_from_url_body (.ok ec) embedOutcome url custom_category
        custom_tags now uuid
        = (.error (.contentStorage "No content extracted"), {}) := by
      simp [store_content_from_url_body, h1, h2]
    exact ⟨"Content storage failed: " ++ "No content extracted",
      by simp [store_content_from_url, hbody, isExtractorExc, PyExc.message]⟩

/-- Witness for C3 at a concrete input: extraction reporting the
transport-level failure dict `{"error": "Request timed out"}`. -/
theorem url_extraction_failure_raises_witness :
    (truthy (ExtractedContent.error { error := some "Request timed out" }) = true ∨
      pyStrip ((ExtractedContent.content { error := some "Request timed out" }).getD "") = "") ∧
    ∃ m, store_content_from_url (.ok { error := some "Request timed out" }) (.ok [])
      "http://x" none none 0 "id" = (.error (.contentStorage m), ({} : CallLog)) :=
  ⟨Or.inl (by decide),
    url_extraction_failure_raises { error := some "Request timed out" } (.ok []) "http://x"
      none none 0 "id" (Or.inl (by decide))⟩

/-- C6: in both ingestion workflows every exception raised in steps 1-5 is
caught and re-raised as `ContentStorageException`, so callers never observe
a provider-specific exception type; when the raised exception is not a
domain exception (shown here for a failing embedding step), the original
message is appended to the `ContentStorageException` message. -/
theorem workflow_exception_wrapping :
    (∀ (extract : Except PyExc ExtractedContent) (embedOutcome : Except PyExc (List Float))
        (url : String) (cc : Option String) (ct : Option (List String)) (now : Nat)
        (uuid : String) (e : PyExc),
        (store_content_from_url extract embedOutcome url cc ct now uuid).1 = .error e →
        ∃ m, e = .contentStorage m) ∧
    (∀ (embedOutcome : Except PyExc (List Float)) (text : String) (title : Option String)
        (cc : Option String) (ct : Option (List String)) (now : Nat) (uuid : String)
        (e : PyExc),
        (store_content_from_text embedOutcome text title cc ct now uuid).1 = .error e →
        ∃ m, e = .contentStorage m) ∧
    (∀ (ec : ExtractedContent) (ex : PyExc) (url : String) (cc : Option String)
        (ct : Option (List String)) (now : Nat) (uuid : String),
        truthy ec.error = false → pyStrip (ec.content.getD "") ≠ "" →
        isExtractorExc ex = false →
        (store_content_from_url (.ok ec) (.error ex) url cc ct now uuid).1
          = .error (.contentStorage ("Content storage failed: " ++ ex.message))) ∧
    (∀ (ex : PyExc) (text : String) (title : Option String) (cc : Option String)
        (ct : Option (List String)) (now : Nat) (uuid : String),
        pyStrip (clean_text text) ≠ "" →
        (store_content_from_text (.error ex) text title cc ct now uuid).1
          = .error (.contentStorage ("Text storage failed: " ++ ex.message))) := by
  refine ⟨?_, ?_, ?_, ?_⟩
  · intro extract embedOutcome url cc ct now uuid e he
    obtain ⟨m, log, h⟩ := store_content_from_url_storage_error extract embedOutcome url
      cc ct now uuid
    refine ⟨m, ?_⟩
    have := congrArg Prod.fst h
    rw [he] at this
    exact Except.error.inj this
  · intro embedOutcome text title cc ct now uuid e he
    obtain ⟨m, log, h⟩ := store_content_from_text_storage_error embedOutcome text title
      cc ct now uuid
    refine ⟨m, ?_⟩
    have := congrArg Prod.fst h
    rw [he] at this
    exact Except.error.inj this
  · intro ec ex url cc ct now uuid h1 h2 hex
    have hbody : store_content_from_url_body (.ok ec) (.error ex) url cc ct now uuid
        = (.error ex, {}) := by
      simp [store_content_from_url_body, h1, h2]
    simp [store_content_from_url, hbody, hex]
  · intro ex text title cc ct now uuid h1
    have hbody : store_content_from_text_body (.error ex) text title cc ct now uuid
        = (.error ex, {}) := by
      simp [store_content_from_text_body, extract_from_text, h1]
    simp [store_content_from_text, hbody]

/-- Witness for C6 at a concrete input: a raw `TimeoutError` from the
embedding provider surfaces as `ContentStorageException` with the original
message appended. -/
theorem workflow_exception_wrapping_witness :
    (store_content_from_url (.ok { content := some "hello" })
        (.error (.timeoutError "boom")) "http://x" none none 0 "id").1
      = .error (.contentStorage ("Content storage failed: " ++
          (PyExc.timeoutError "boom").message)) :=
  workflow_exception_wrapping.2.2.1 { content := some "hello" } (.timeoutError "boom")
    "http://x" none none 0 "id" (by decide) (by decide) (by decide)

/-- C1 (code-bug evidence): the spec scenario — storing the text
`"Python is great"` with `custom_category = "Programming"` — does not yield
a record with category `"Programming"`.  The workflow unconditionally calls
the categorization service (the code only applies `custom_category` after
that call), and the call site itself fails on arity, so the workflow raises
`ContentStorageException` and returns no record; the call log confirms that
no categorization-provider network call and no store insert happened. -/
theorem custom_category_scenario_raises :
    store_content_from_text (.ok [0.5]) "Python is great" none (some "Programming") none 0 "id0"
      = (.error (.contentStorage ("Text storage failed: " ++
          "CategorizationService.categorize_content() missing 1 required positional argument: content")),
         ({} : CallLog)) := by
  have hne : pyStrip ((extract_from_text "Python is great").content.getD "") ≠ "" := by
    decide
  have hbody : store_content_from_text_body (.ok [0.5]) "Python is great" none
      (some "Programming") none 0 "id0"
      = (.error (.typeError
          "CategorizationService.categorize_content() missing 1 required positional argument: content"),
         {}) := by
    simp [store_content_from_text_body, hne, categorize_content_call_one_arg]
  simp [store_content_from_text, hbody, PyExc.message]

/- ----------------------------------------------------------------------
Quiz-shape lemmas
---------------------------------------------------------------------- -/

/-- The mcq per-question check passes exactly on questions with 4 choices
and a non-blank explanation. -/
theorem check_mcq_question_ok_iff (q : QuizQuestion) :
    check_mcq_question q = .ok () ↔ q.choice.length = 4 ∧ pyStrip q.explanation ≠ "" := by
  by_cases h1 : q.choice.length = 4
  · by_cases h2 : pyStrip q.explanation = "" <;> simp [check_mcq_question, h1, h2]
  · simp [check_mcq_question, h1]

/-- The true/false per-question check passes exactly on questions with 2
choices and a non-blank explanation. -/
theorem check_tf_question_ok_iff (q : QuizQuestion) :
    check_tf_question q = .ok () ↔ q.choice.length = 2 ∧ pyStrip q.explanation ≠ "" := by
  by_cases h1 : q.choice.length = 2
  · by_cases h2 : pyStrip q.explanation = "" <;> simp [check_tf_question, h1, h2]
  · simp [check_tf_question, h1]

/-- The fill-in-blank per-question check passes exactly on questions with
at least 2 choices and a non-blank explanation. -/
theorem check_fib_question_ok_iff (q : QuizQuestion) :
    check_fib_question q = .ok () ↔ 2 ≤ q.choice.length ∧ pyStrip q.explanation ≠ "" := by
  by_cases h1 : q.choice.length < 2
  · simp [check_fib_question, h1, Nat.lt_iff_add_one_le]
  · by_cases h2 : pyStrip q.explanation = "" <;>
      simp [check_fib_question, h1, h2, Nat.not_lt.mp h1]

/-- The validation loop succeeds exactly when every question passes the
per-question check. -/
theorem validate_questions_ok_iff (check : QuizQuestion → Except PyExc Unit)
    (l : List QuizQuestion) :
    validate_questions check l = .ok () ↔ ∀ q ∈ l, check q = .ok () := by
  induction l with
  | nil => simp [validate_questions]
  | cons q rest ih =>
    cases hc : check q with
    | ok u => cases u; simp [validate_questions, hc, ih]
    | error e => simp [validate_questions, hc]

/-- The `try` block of a quiz generator returns `q` exactly when the
provider returned `q` and the validation loop passed on it. -/
theorem quiz_try_ok_iff (po : Except PyExc Quiz)
    (check : QuizQuestion → Except PyExc Unit) (q : Quiz) :
    wrapQuizRuntime (do
        let quiz ← po
        let _ ← validate_questions check quiz.questions
        return quiz) = .ok q
    ↔ po = .ok q ∧ validate_questions check q.questions = .ok () := by
  cases po with
  | error e => simp [wrapQuizRuntime, Bind.bind, Except.bind]
  | ok quiz =>
    cases hv : validate_questions check quiz.questions with
    | ok u =>
      cases u
      constructor
      · intro h
        simp only [Bind.bind, Except.bind, hv, wrapQuizRuntime, Pure.pure, Except.pure] at h
        cases h
        exact ⟨rfl, hv⟩
      · rintro ⟨hq, _⟩
        cases hq
        simp [Bind.bind, Except.bind, hv, wrapQuizRuntime, Pure.pure, Except.pure]
    | error e =>
      constructor
      · intro h
        simp [Bind.bind, Except.bind, hv, wrapQuizRuntime] at h
      · rintro ⟨hq, hval⟩
        cases hq
        rw [hv] at hval
        cases hval

/-- `generate_mcq_quiz` returns `q` exactly when input validation passed,
the provider returned `q`, and every question passed the mcq check. -/
theorem generate_mcq_quiz_ok_iff (cs : List String) (cat : String)
    (po : Except PyExc Quiz) (nq : Int) (df : String) (q : Quiz) :
    generate_mcq_quiz cs cat po nq df = .ok q ↔
      quiz_input_validation cs nq df = .ok () ∧ po = .ok q ∧
      validate_questions check_mcq_question q.questions = .ok () := by
  cases hv : quiz_input_validation cs nq df with
  | ok u =>
    cases u
    have h := quiz_try_ok_iff po check_mcq_question q
    simpa [generate_mcq_quiz, hv] using h
  | error e => simp [generate_mcq_quiz, hv]

/-- `generate_true_false_quiz` analogue of `generate_mcq_quiz_ok_iff`. -/
theorem generate_tf_quiz_ok_iff (cs : List String) (cat : String)
    (po : Except PyExc Quiz) (nq : Int) (df : String) (q : Quiz) :
    generate_true_false_quiz cs cat po nq df = .ok q ↔
      quiz_input_validation cs nq df = .ok () ∧ po = .ok q ∧
      validate_questions check_tf_question q.questions = .ok () := by
  cases hv : quiz_input_validation cs nq df with
  | ok u =>
    cases u
    have h := quiz_try_ok_iff po check_tf_question q
    simpa [generate_true_false_quiz, hv] using h
  | error e => simp [generate_true_false_quiz, hv]

/-- `generate_fill_in_blank_quiz` analogue of `generate_mcq_quiz_ok_iff`. -/
theorem generate_fib_quiz_ok_iff (cs : List String) (cat : String)
    (po : Except PyExc Quiz) (nq : Int) (df : String) (q : Quiz) :
    generate_fill_in_blank_quiz cs cat po nq df = .ok q ↔
      quiz_input_validation cs nq df = .ok () ∧ po = .ok q ∧
      validate_questions check_fib_question q.questions = .ok () := by
  cases hv : quiz_input_validation cs nq df with
  | ok u =>
    cases u
    have h := quiz_try_ok_iff po check_fib_question q
    simpa [generate_fill_in_blank_quiz, hv] using h
  | error e => simp [generate_fill_in_blank_quiz, hv]

/-- C4: every quiz returned by the quiz-generation operations satisfies the
shape invariant — each multiple-choice question has exactly 4 choices, each
true/false question exactly 2, each fill-in-blank question at least 2, and
every question a non-blank explanation — and a provider quiz violating the
invariant makes the generator raise instead of returning the quiz. -/
theorem quiz_shape_invariant (cs : List String) (cat : String)
    (po : Except PyExc Quiz) (nq : Int) (df : String) :
    (∀ q, generate_mcq_quiz cs cat po nq df = .ok q →
        ∀ qq ∈ q.questions, qq.choice.length = 4 ∧ pyStrip qq.explanation ≠ "") ∧
    (∀ q, generate_true_false_quiz cs cat po nq df = .ok q →
        ∀ qq ∈ q.questions, qq.choice.length = 2 ∧ pyStrip qq.explanation ≠ "") ∧
    (∀ q, generate_fill_in_blank_quiz cs cat po nq df = .ok q →
        ∀ qq ∈ q.questions, 2 ≤ qq.choice.length ∧ pyStrip qq.explanation ≠ "") ∧
    (∀ q, po = .ok q →
        (∃ qq ∈ q.questions, ¬(qq.choice.length = 4 ∧ pyStrip qq.explanation ≠ "")) →
        ∃ e, generate_mcq_quiz cs cat po nq df = .error e) ∧
    (∀ q, po = .ok q →
        (∃ qq ∈ q.questions, ¬(qq.choice.length = 2 ∧ pyStrip qq.explanation ≠ "")) →
        ∃ e, generate_true_false_quiz cs cat po nq df = .error e) ∧
    (∀ q, po = .ok q →
        (∃ qq ∈ q.questions, ¬(2 ≤ qq.choice.length ∧ pyStrip qq.explanation ≠ "")) →
        ∃ e, generate_fill_in_blank_quiz cs cat po nq df = .error e) := by
  refine ⟨?_, ?_, ?_, ?_, ?_, ?_⟩
  · intro q h qq hqq
    obtain ⟨-, -, hval⟩ := (generate_mcq_quiz_ok_iff cs cat po nq df q).mp h
    exact (check_mcq_question_ok_iff qq).mp ((validate_questions_ok_iff _ _).mp hval qq hqq)
  · intro q h qq hqq
    obtain ⟨-, -, hval⟩ := (generate_tf_quiz_ok_iff cs cat po nq df q).mp h
    exact (check_tf_question_ok_iff qq).mp ((validate_questions_ok_iff _ _).mp hval qq hqq)
  · intro q h qq hqq
    obtain ⟨-, -, hval⟩ := (generate_fib_quiz_ok_iff cs cat po nq df q).mp h
    exact (check_fib_question_ok_iff qq).mp ((validate_questions_ok_iff _ _).mp hval qq hqq)
  · rintro q hpo ⟨qq, hqq, hbad⟩
    cases hr : generate_mcq_quiz cs cat po nq df with
    | error e => exact ⟨e, rfl⟩
    | ok q2 =>
      obtain ⟨-, hpo2, hval⟩ := (generate_mcq_quiz_ok_iff cs cat po nq df q2).mp hr
      rw [hpo] at hpo2
      cases hpo2
      exact absurd ((check_mcq_question_ok_iff qq).mp
        ((validate_questions_ok_iff _ _).mp hval qq hqq)) hbad
  · rintro q hpo ⟨qq, hqq, hbad⟩
    cases hr : generate_true_false_quiz cs cat po nq df with
    | error e => exact ⟨e, rfl⟩
    | ok q2 =>
      obtain ⟨-, hpo2, hval⟩ := (generate_tf_quiz_ok_iff cs cat po nq df q2).mp hr
      rw [hpo] at hpo2
      cases hpo2
      exact absurd ((check_tf_question_ok_iff qq).mp
        ((validate_questions_ok_iff _ _).mp hval qq hqq)) hbad
  · rintro q hpo ⟨qq, hqq, hbad⟩
    cases hr : generate_fill_in_blank_quiz cs cat po nq df with
    | error e => exact ⟨e, rfl⟩
    | ok q2 =>
      obtain ⟨-, hpo2, hval⟩ := (generate_fib_quiz_ok_iff cs cat po nq df q2).mp hr
      rw [hpo] at hpo2
      cases hpo2
      exact absurd ((check_fib_question_ok_iff qq).mp
        ((validate_questions_ok_iff _ _).mp hval qq hqq)) hbad

/-- A well-shaped concrete multiple-choice quiz used by the C4 witness. -/
def sampleGoodMcqQuiz : Quiz :=
  { title := "T", quiz_id := "q1"
    questions := [{ number := 1, topic := "t", question := "Q", explanation := "E",
                    choice := ["a", "b", "c", "d"] }] }

/-- A malformed concrete quiz (a 3-choice question) used by the C4
witness. -/
def sampleBadMcqQuiz : Quiz :=
  { title := "T", quiz_id := "q2"
    questions := [{ number := 1, topic := "t", question := "Q", explanation := "E",
                    choice := ["a", "b", "c"] }] }

/-- Witness for C4 at concrete inputs: a well-shaped provider quiz passes
the mcq generator and satisfies the invariant; a provider quiz with a
3-choice question makes the mcq generator raise. -/
theorem quiz_shape_invariant_witness :
    (∀ qq ∈ sampleGoodMcqQuiz.questions,
        qq.choice.length = 4 ∧ pyStrip qq.explanation ≠ "") ∧
    (∃ e, generate_mcq_quiz ["s"] "cat" (.ok sampleBadMcqQuiz) 5 "mixed" = .error e) := by
  constructor
  · exact (quiz_shape_invariant ["s"] "cat" (.ok sampleGoodMcqQuiz) 5 "mixed").1
      sampleGoodMcqQuiz rfl
  · exact (quiz_shape_invariant ["s"] "cat" (.ok sampleBadMcqQuiz) 5 "mixed").2.2.2.1
      sampleBadMcqQuiz rfl
      ⟨{ number := 1, topic := "t", question := "Q", explanation := "E",
         choice := ["a", "b", "c"] },
       by simp [sampleBadMcqQuiz], by decide⟩

/- ----------------------------------------------------------------------
Categorization cache and retry lemmas
---------------------------------------------------------------------- -/

/-- The transient failure class of the retry loop: `RateLimitError` and
`APITimeoutError`. -/
def ProviderOutcome.isTransient : ProviderOutcome → Bool
  | .rateLimitError _ | .apiTimeoutError _ => true
  | _ => false

/-- If the retry loop returns a value on a cache-enabled state, the value
was inserted at the head of the cache. -/
theorem categorizeLoop_ok_state (key : String) (provider : Nat → ProviderOutcome)
    (maxR rd : Nat) :
    ∀ (remaining attempt calls : Nat) (sleeps : List Nat) (st : CategorizationState)
      (v : CategoryResults),
      st.cache_enabled = true →
      (categorizeLoop st key provider attempt remaining maxR rd calls sleeps).result
          = .ok (some v) →
      (categorizeLoop st key provider attempt remaining maxR rd calls sleeps).state
          = { st with cache := (key, v) :: st.cache } := by
  intro remaining
  induction remaining with
  | zero =>
    intro attempt calls sleeps st v hen h
    simp [categorizeLoop] at h
  | succ n ih =>
    intro attempt calls sleeps st v hen h
    cases hp : provider attempt with
    | ok r =>
      simp only [categorizeLoop, hp, hen, if_true] at h ⊢
      simp only [Except.ok.injEq, Option.some.injEq] at h
      subst h
      simp [hen]
    | rateLimitError m =>
      by_cases ha : attempt < maxR
      · simp only [categorizeLoop, hp, ha, if_true] at h ⊢
        exact ih _ _ _ _ _ hen h
      · simp only [categorizeLoop, hp, ha, if_false] at h
        simp at h
    | apiTimeoutError m =>
      by_cases ha : attempt < maxR
      · simp only [categorizeLoop, hp, ha, if_true] at h ⊢
        exact ih _ _ _ _ _ hen h
      · simp only [categorizeLoop, hp, ha, if_false] at h
        simp at h
    | apiError m =>
      simp only [categorizeLoop, hp] at h
      simp at h
    | unexpected m =>
      simp only [categorizeLoop, hp] at h
      simp at h

/-- The retry loop performs at most `remaining` further provider calls. -/
theorem categorizeLoop_calls_le (key : String) (provider : Nat → ProviderOutcome)
    (maxR rd : Nat) :
    ∀ (remaining attempt calls : Nat) (sleeps : List Nat) (st : CategorizationState),
      (categorizeLoop st key provider attempt remaining maxR rd calls sleeps).providerCalls
        ≤ calls + remaining := by
  intro remaining
  induction remaining with
  | zero => intro attempt calls sleeps st; simp [categorizeLoop]
  | succ n ih =>
    intro attempt calls sleeps st
    cases hp : provider attempt with
    | ok r =>
      simp only [categorizeLoop, hp]
      omega
    | rateLimitError m =>
      by_cases ha : attempt < maxR
      · simp only [categorizeLoop, hp, ha, if_true]
        have := ih (attempt + 1) (calls + 1) (sleeps ++ [rd]) st
        omega
      · simp only [categorizeLoop, hp, ha, if_false]
        omega
    | apiTimeoutError m =>
      by_cases ha : attempt < maxR
      · simp only [categorizeLoop, hp, ha, if_true]
        have := ih (attempt + 1) (calls + 1) (sleeps ++ [rd]) st
        omega
      · simp only [categorizeLoop, hp, ha, if_false]
        omega
    | apiError m =>
      simp only [categorizeLoop, hp]
      omega
    | unexpected m =>
      simp only [categorizeLoop, hp]
      omega

/-- If the first attempt succeeds, the loop stops after exactly one
provider call and no extra sleep. -/
theorem categorizeLoop_first_ok (st : CategorizationState) (key : String)
    (provider : Nat → ProviderOutcome) (attempt n maxR rd calls : Nat)
    (sleeps : List Nat) (r : CategoryResults) (hp : provider attempt = .ok r) :
    categorizeLoop st key provider attempt (n + 1) maxR rd calls sleeps
      = ⟨.ok (some r),
         if st.cache_enabled then { st with cache := (key, r) :: st.cache } else st,
         calls + 1, sleeps⟩ := by
  simp only [categorizeLoop, hp]

/-- A successful `categorize_content` call on a cache-enabled state leaves
the result under its key in the cache and certifies the content was
non-blank. -/
theorem categorize_content_ok_cache (st : CategorizationState) (title content : String)
    (p : Nat → ProviderOutcome) (mr rd : Nat) (v : CategoryResults)
    (hen : st.cache_enabled = true)
    (h : (categorize_content st title content p mr rd).result = .ok (some v)) :
    (categorize_content st title content p mr rd).state.cache_enabled = true ∧
    (categorize_content st title content p mr rd).state.cache.lookup
        (generate_cache_key title content) = some v ∧
    pyStrip content ≠ "" := by
  by_cases hc : pyStrip content = ""
  · rw [categorize_content, if_pos hc] at h
    simp at h
  · rw [categorize_content, if_neg hc] at h
    dsimp only at h
    cases hlk : (if st.cache_enabled then
        st.cache.lookup (generate_cache_key title content) else none) with
    | some r =>
      rw [hlk] at h
      dsimp only at h
      have hr : r = v := by simpa using h
      subst hr
      refine ⟨?_, ?_, hc⟩
      · rw [categorize_content, if_neg hc]
        dsimp only
        rw [hlk]
        exact hen
      · rw [categorize_content, if_neg hc]
        dsimp only
        rw [hlk]
        dsimp only
        simpa [hen] using hlk
    | none =>
      rw [hlk] at h
      have hst := categorizeLoop_ok_state (generate_cache_key title content) p mr rd
        mr 1 0 [] st v hen h
      refine ⟨?_, ?_, hc⟩
      · rw [categorize_content, if_neg hc]
        dsimp only
        rw [hlk, hst]
        exact hen
      · rw [categorize_content, if_neg hc]
        dsimp only
        rw [hlk, hst]
        simp [List.lookup]

/-- With a non-blank content, an enabled cache and a stored value under the
key, `categorize_content` is a pure cache hit: no provider call, no sleep,
unchanged state. -/
theorem categorize_content_cache_hit (st : CategorizationState) (title content : String)
    (p : Nat → ProviderOutcome) (mr rd : Nat) (v : CategoryResults)
    (hen : st.cache_enabled = true)
    (hlk : st.cache.lookup (generate_cache_key title content) = some v)
    (hc : pyStrip content ≠ "") :
    categorize_content st title content p mr rd = ⟨.ok (some v), st, 0, []⟩ := by
  rw [categorize_content, if_neg hc]
  dsimp only
  simp [hen, hlk]

/-- A concrete provider result used by the categorization examples. -/
def exampleCategoryResult : CategoryResults :=
  { category := "Technology", confidence := 0.5, tags := ["python"], summary := "s" }

/-- A provider whose first attempt is rate-limited and whose later attempts
succeed. -/
def transientThenOkProvider : Nat → ProviderOutcome :=
  fun n => if n = 1 then .rateLimitError "rate limited" else .ok exampleCategoryResult

/-- A provider that succeeds immediately on every attempt. -/
def alwaysOkProvider : Nat → ProviderOutcome :=
  fun _ => .ok exampleCategoryResult

/-- C5 counterexample: on a cache-enabled service with an empty cache, a
first call that succeeds after one transient retry invokes the provider
twice; a second identical call is a cache hit, so both calls return the
same result, yet the provider was invoked twice — not at most once — across
the two calls. -/
theorem categorization_cache_counterexample :
    (categorize_content ⟨true, []⟩ "T" "C" transientThenOkProvider).result
        = .ok (some exampleCategoryResult) ∧
    (categorize_content (categorize_content ⟨true, []⟩ "T" "C" transientThenOkProvider).state
        "T" "C" transientThenOkProvider).result
        = .ok (some exampleCategoryResult) ∧
    ¬ ((categorize_content ⟨true, []⟩ "T" "C" transientThenOkProvider).providerCalls
        + (categorize_content
            (categorize_content ⟨true, []⟩ "T" "C" transientThenOkProvider).state
            "T" "C" transientThenOkProvider).providerCalls ≤ 1) :=
  ⟨rfl, rfl, by decide⟩

/-- C5 (amended): on a cache-enabled service, after a first
`categorize_content` call that succeeds, a second call with identical
`(title, content)` is an unconditional cache hit — zero provider
invocations, no sleeps, unchanged state — returning a result equal to that
of the first call; the first call makes at most the retry limit (3) provider
invocations, and at most one when its first attempt already succeeds, so
the provider runs at most once across the two calls in that case. -/
theorem categorization_cache_spec (st : CategorizationState) (title content : String)
    (p1 p2 : Nat → ProviderOutcome) (v : CategoryResults)
    (hen : st.cache_enabled = true)
    (h1 : (categorize_content st title content p1).result = .ok (some v)) :
    categorize_content (categorize_content st title content p1).state title content p2
      = ⟨.ok (some v), (categorize_content st title content p1).state, 0, []⟩ ∧
    (categorize_content st title content p1).providerCalls ≤ 3 ∧
    (∀ w, p1 1 = .ok w →
      (categorize_content st title content p1).providerCalls
        + (categorize_content (categorize_content st title content p1).state
            title content p2).providerCalls ≤ 1) := by
  obtain ⟨hen2, hlk2, hc⟩ := categorize_content_ok_cache st title content p1 3 2 v hen h1
  have hsecond := categorize_content_cache_hit
    (categorize_content st title content p1).state title content p2 3 2 v hen2 hlk2 hc
  refine ⟨hsecond, ?_, ?_⟩
  · rw [categorize_content, if_neg hc]
    dsimp only
    cases hlk : (if st.cache_enabled then
        st.cache.lookup (generate_cache_key title content) else none) with
    | some r => simp
    | none =>
      simpa using categorizeLoop_calls_le (generate_cache_key title content) p1 3 2 3 1 0 [] st
  · intro w hw
    have hz : (categorize_content (categorize_content st title content p1).state
        title content p2).providerCalls = 0 := by rw [hsecond]
    rw [hz, Nat.add_zero]
    rw [categorize_content, if_neg hc]
    dsimp only
    cases hlk : (if st.cache_enabled then
        st.cache.lookup (generate_cache_key title content) else none) with
    | some r => simp
    | none =>
      simp only [categorizeLoop, hw]
      simp

/-- Witness for C5 (amended) at a concrete input: empty enabled cache,
provider succeeding on the first attempt. -/
theorem categorization_cache_spec_witness :
    ((⟨true, []⟩ : CategorizationState).cache_enabled = true) ∧
    ((categorize_content ⟨true, []⟩ "T" "C" alwaysOkProvider).result
        = .ok (some exampleCategoryResult)) ∧
    categorize_content (categorize_content ⟨true, []⟩ "T" "C" alwaysOkProvider).state
        "T" "C" alwaysOkProvider
      = ⟨.ok (some exampleCategoryResult),
         (categorize_content ⟨true, []⟩ "T" "C" alwaysOkProvider).state, 0, []⟩ :=
  ⟨rfl, rfl,
    (categorization_cache_spec ⟨true, []⟩ "T" "C" alwaysOkProvider alwaysOkProvider
      exampleCategoryResult rfl rfl).1⟩

/-- A provider outcome is transient exactly when it is a rate-limit or
timeout failure. -/
theorem isTransient_iff (o : ProviderOutcome) :
    o.isTransient = true ↔ ∃ m, o = .rateLimitError m ∨ o = .apiTimeoutError m := by
  cases o <;> simp [ProviderOutcome.isTransient]

/-- C7: in `categorize_content`, empty-content validation is raised before
any provider call and is never retried; transient failures (rate-limit and
timeout) are retried up to the fixed attempt count (3) with the fixed
`retry_delay` slept between attempts, and the terminal error is raised only
once the attempts are exhausted; a failure of any other class is raised
immediately after a single provider call, with no retry and no sleep. -/
theorem categorize_retry_policy (st : CategorizationState) (title content : String)
    (p : Nat → ProviderOutcome) (rd : Nat) :
    (pyStrip content = "" →
      categorize_content st title content p 3 rd
        = ⟨.error (.valueError "Cannot categorize empty content."), st, 0, []⟩) ∧
    (pyStrip content ≠ "" →
     (if st.cache_enabled then st.cache.lookup (generate_cache_key title content)
        else none) = none →
     (((p 1).isTransient = true → (p 2).isTransient = true → (p 3).isTransient = true →
        ∃ m, categorize_content st title content p 3 rd
          = ⟨.error (.runtimeError
                ("Retry limit reached. Failed due to transient error: " ++ m)),
             st, 3, [rd, rd]⟩) ∧
      (∀ m, p 1 = .apiError m →
        categorize_content st title content p 3 rd
          = ⟨.error (.runtimeError ("API Error occurred: " ++ m)), st, 1, []⟩) ∧
      (∀ m, p 1 = .unexpected m →
        categorize_content st title content p 3 rd
          = ⟨.error (.runtimeError ("Unexpected error occurred: " ++ m)), st, 1, []⟩))) := by
  refine ⟨?_, ?_⟩
  · intro hc
    rw [categorize_content, if_pos hc]
  · intro hc hmiss
    have hcc : categorize_content st title content p 3 rd
        = categorizeLoop st (generate_cache_key title content) p 1 3 3 rd 0 [] := by
      rw [categorize_content, if_neg hc]
      dsimp only
      rw [hmiss]
    refine ⟨?_, ?_, ?_⟩
    · intro h1 h2 h3
      rw [hcc]
      rcases (isTransient_iff (p 1)).mp h1 with ⟨m1, hp1 | hp1⟩ <;>
        rcases (isTransient_iff (p 2)).mp h2 with ⟨m2, hp2 | hp2⟩ <;>
          rcases (isTransient_iff (p 3)).mp h3 with ⟨m3, hp3 | hp3⟩ <;>
            exact ⟨m3, by norm_num [categorizeLoop, hp1, hp2, hp3]⟩
    · intro m hm
      rw [hcc]
      simp only [categorizeLoop, hm]
    · intro m hm
      rw [hcc]
      simp only [categorizeLoop, hm]

/-- A provider failing with a rate limit on every attempt. -/
def alwaysRateLimitedProvider : Nat → ProviderOutcome :=
  fun _ => .rateLimitError "boom"

/-- Witness for C7 at concrete inputs: whitespace-only content is rejected
with no provider call, and a provider that is rate-limited on every attempt
exhausts the 3 attempts with delay 2 slept twice. -/
theorem categorize_retry_policy_witness :
    (categorize_content ⟨true, []⟩ "T" " " alwaysRateLimitedProvider 3 2
        = ⟨.error (.valueError "Cannot categorize empty content."), ⟨true, []⟩, 0, []⟩) ∧
    (∃ m, categorize_content ⟨true, []⟩ "T" "C" alwaysRateLimitedProvider 3 2
        = ⟨.error (.runtimeError
              ("Retry limit reached. Failed due to transient error: " ++ m)),
           ⟨true, []⟩, 3, [2, 2]⟩) :=
  ⟨(categorize_retry_policy ⟨true, []⟩ "T" " " alwaysRateLimitedProvider 2).1 (by decide),
   ((categorize_retry_policy ⟨true, []⟩ "T" "C" alwaysRateLimitedProvider 2).2
      (by decide) rfl).1 rfl rfl rfl⟩

/-- A concrete record with two tags used by the round-trip evidence. -/
def exampleRecord : ContentRecord :=
  { content_id := "id-1"
    original_content := "body"
    content_type := "url"
    title := "T"
    summary := "sum"
    category := "Tech"
    tags := ["python", "ai"]
    embedding := []
    timestamp := 0
    source_url := some "http://x"
    metadata :=
      { title := "T", author := "Unknown", abstract := "", keywords := []
        date_published := 0 } }

/-- C8 (code-bug evidence): serializing a record flattens its tags into the
comma-joined string, but `retrieve_content_by_category` feeds that stored
string straight into the `List[str]` tags field without splitting, so the
reconstruction raises a validation error instead of returning the original
tags — even though the splitter the store layer itself uses for
`get_all_tags` would have recovered them. -/
theorem tags_roundtrip_fails :
    (vdb_store_metadata exampleRecord "Tech" 0).tags = "python,ai" ∧
    reconstruct_record_fields (vdb_store_metadata exampleRecord "Tech" 0) "Tech"
      = .error (.valueError "Input should be a valid list") ∧
    split_tags (vdb_store_metadata exampleRecord "Tech" 0).tags = ["python", "ai"] :=
  ⟨rfl, rfl, rfl⟩

/-- C9 counterexample: a request supplying the date pair
`start_date = "x"`, `end_date = "y"` (both truthy) is not answered by a
date-range query: `datetime.fromisoformat("x")` raises `ValueError`, the
catch-all re-raises `VectorDatabaseError`, and no store query is issued. -/
theorem query_content_malformed_date_counterexample :
    truthy (some "x") = true ∧ truthy (some "y") = true ∧
    query_content (fun q => q)
        { query_text := "q", start_date := some "x", end_date := some "y" }
      = (.error (.vectorDatabaseError
          ("Failed to query content: Invalid isoformat string: \x27x\x27")), []) :=
  ⟨by decide, by decide, rfl⟩

/-- C9 (amended): `query_content` rejects a request carrying neither the
date pair nor a category with the validation failure before any store
query is attempted (the validation `ValueError` surfacing through the
catch-all as `VectorDatabaseError` carrying the validation message);
answers a request carrying both dates in valid ISO format with a date-range
query; fails a request whose truthy `start_date` or `end_date` is not ISO
with the wrapped parse `ValueError`, again before any store query; and
answers a request carrying a category (and not both dates) with a category
query. -/
theorem query_content_validation {α : Type} (db : StoreQuery → α)
    (req : QueryContentRequest) :
    (¬(truthy req.start_date = true ∧ truthy req.end_date = true) →
      truthy req.category = false →
      query_content db req
        = (.error (.vectorDatabaseError
            "Failed to query content: Either date_range or category must be provided for querying content."),
           [])) ∧
    (truthy req.start_date = true → truthy req.end_date = true →
      isIsoFormat (req.start_date.getD "") = true →
      isIsoFormat (req.end_date.getD "") = true →
      query_content db req
        = (.ok (db (.dateRange (req.start_date.getD "") (req.end_date.getD "") req.k)),
           [.dateRange (req.start_date.getD "") (req.end_date.getD "") req.k])) ∧
    (truthy req.start_date = true → truthy req.end_date = true →
      isIsoFormat (req.start_date.getD "") = false →
      query_content db req
        = (.error (.vectorDatabaseError
            ("Failed to query content: Invalid isoformat string: \x27"
              ++ req.start_date.getD "" ++ "\x27")), [])) ∧
    (truthy req.start_date = true → truthy req.end_date = true →
      isIsoFormat (req.start_date.getD "") = true →
      isIsoFormat (req.end_date.getD "") = false →
      query_content db req
        = (.error (.vectorDatabaseError
            ("Failed to query content: Invalid isoformat string: \x27"
              ++ req.end_date.getD "" ++ "\x27")), [])) ∧
    (¬(truthy req.start_date = true ∧ truthy req.end_date = true) →
      truthy req.category = true →
      query_content db req
        = (.ok (db (.byCategory (req.category.getD "") req.k)),
           [.byCategory (req.category.getD "") req.k])) := by
  refine ⟨?_, ?_, ?_, ?_, ?_⟩
  · intro hd hc
    rw [query_content, if_neg hd, if_neg (by simp [hc])]
  · intro hs he hsi hei
    rw [query_content, if_pos ⟨hs, he⟩, fromisoformat, if_pos hsi,
      fromisoformat, if_pos hei]
  · intro hs he hsi
    rw [query_content, if_pos ⟨hs, he⟩, fromisoformat,
      if_neg (by simp [hsi])]
    rfl
  · intro hs he hsi hei
    rw [query_content, if_pos ⟨hs, he⟩, fromisoformat, if_pos hsi,
      fromisoformat, if_neg (by simp [hei])]
    rfl
  · intro hd hc
    rw [query_content, if_neg hd, if_pos hc]

/-- Witness for C9 at concrete requests: neither selector, a valid ISO date
pair, a malformed start date, and only a category. -/
theorem query_content_validation_witness :
    (query_content (fun q => q) { query_text := "q" }
      = (.error (.vectorDatabaseError
          "Failed to query content: Either date_range or category must be provided for querying content."),
         [])) ∧
    (query_content (fun q => q)
        { query_text := "q", start_date := some "2024-01-01", end_date := some "2024-02-01" }
      = (.ok (.dateRange "2024-01-01" "2024-02-01" 5),
         [.dateRange "2024-01-01" "2024-02-01" 5])) ∧
    (query_content (fun q => q)
        { query_text := "q", start_date := some "2024/01/01", end_date := some "2024-02-01" }
      = (.error (.vectorDatabaseError
          ("Failed to query content: Invalid isoformat string: \x272024/01/01\x27")), [])) ∧
    (query_content (fun q => q) { query_text := "q", category := some "Tech" }
      = (.ok (.byCategory "Tech" 5), [.byCategory "Tech" 5])) :=
  ⟨(query_content_validation (fun q => q) { query_text := "q" }).1
      (by decide) (by decide),
   (query_content_validation (fun q => q)
      { query_text := "q", start_date := some "2024-01-01",
        end_date := some "2024-02-01" }).2.1 (by decide) (by decide)
      (by decide) (by decide),
   (query_content_validation (fun q => q)
      { query_text := "q", start_date := some "2024/01/01",
        end_date := some "2024-02-01" }).2.2.1 (by decide) (by decide) (by decide),
   (query_content_validation (fun q => q)
      { query_text := "q", category := some "Tech" }).2.2.2.2 (by decide) (by decide)⟩

end CognitiveCanvas